import Mathlib

/-!
Verification development for the chatMol repository (molecular descriptor
computation and drug-likeness filter evaluation).

The Python sources are shallowly embedded:
* Python floats that can be NaN are modelled by `PyFloat` (a rational or NaN);
  every comparison involving NaN is `false`, as in IEEE / Python semantics.
* A Python dict used as a flat feature record is modelled by an association
  list `Row` (first binding wins, updates keep the key position, as for a
  Python dict).
* The external RDKit toolkit is an opaque capability: parsing and descriptor
  computation are parameters (oracles) of the embedded functions.  A parse
  failure (`Chem.MolFromSmiles` returning `None`) is `Option.none`.
-/

namespace ChatMol

/-- A Python float value as used by the property layer: either an actual
(rational) number or NaN (`float('nan')`).  Descriptor values are initialized
to NaN and replaced by real numbers when computation succeeds. -/
inductive PyFloat where
  | nan : PyFloat
  | val : ℚ → PyFloat
deriving DecidableEq, Repr

/-- Python `x <= y` on floats: false whenever either side is NaN. -/
def pyLe : PyFloat → PyFloat → Bool
  | PyFloat.val a, PyFloat.val b => decide (a ≤ b)
  | _, _ => false

/-- Python `x < y` on floats: false whenever either side is NaN. -/
def pyLt : PyFloat → PyFloat → Bool
  | PyFloat.val a, PyFloat.val b => decide (a < b)
  | _, _ => false

/-- A value stored in a feature record / table cell
(float | int | string | bool | None). -/
inductive Value where
  | num : PyFloat → Value
  | str : String → Value
  | bool : Bool → Value
  | none : Value
deriving DecidableEq, Repr

/-- A flat feature record (Python dict), as an association list. -/
abbrev Row := List (String × Value)

/-- Dict lookup: first binding wins. -/
def getRow : Row → String → Option Value
  | [], _ => Option.none
  | (k, v) :: t, c => if k = c then some v else getRow t c

/-- Dict lookup with `None` default (`d.get(k)` in Python). -/
def getValD (r : Row) (c : String) : Value :=
  (getRow r c).getD Value.none

/-- Dict update `d[k] = v`: replaces the value in place if the key exists
(keeping its position), appends a new binding otherwise. -/
def setCell : Row → String → Value → Row
  | [], c, v => [(c, v)]
  | (k, w) :: t, c, v => if k = c then (c, v) :: t else (k, w) :: setCell t c v

/-! ## `chatmol/properties.py`: the basic aggregator `calculate_properties`

The RDKit calls inside the `try` block are replaced by an oracle: parsing
either fails (`Option.none`, covering both `mol is None` and a raised
exception before any key is overwritten) or yields the descriptor values
computed by RDKit for the parsed molecule. -/

/-- Descriptor values RDKit computes for a successfully parsed molecule in
`calculate_properties` (src/chatmol/properties.py lines 81-85). -/
structure BasicDescriptors where
  MolWt : ℚ
  MolLogP : ℚ
  NumHDonors : ℚ
  NumHAcceptors : ℚ
  CalcMolFormula : String
deriving DecidableEq, Repr

/-- `calculate_properties` (src/chatmol/properties.py lines 53-89): the result
dict is initialized with all five keys mapped to NaN / `None`; on a parse
failure it is returned unchanged, on success each key is overwritten with the
computed descriptor. -/
def calculate_properties : Option BasicDescriptors → Row
  | Option.none =>
      [("molecular_weight", Value.num PyFloat.nan),
       ("logp", Value.num PyFloat.nan),
       ("num_h_donors", Value.num PyFloat.nan),
       ("num_h_acceptors", Value.num PyFloat.nan),
       ("formula", Value.none)]
  | some d =>
      [("molecular_weight", Value.num (PyFloat.val d.MolWt)),
       ("logp", Value.num (PyFloat.val d.MolLogP)),
       ("num_h_donors", Value.num (PyFloat.val d.NumHDonors)),
       ("num_h_acceptors", Value.num (PyFloat.val d.NumHAcceptors)),
       ("formula", Value.str d.CalcMolFormula)]

/-- `calculate_molecular_properties` (src/server.py lines 106-135), on its
default path (`properties is None`): an empty SMILES string (`if not smiles`)
yields the error envelope `{"error": "No SMILES string provided"}`, otherwise
the basic properties are returned. -/
def calculate_molecular_properties (smiles : String)
    (basic : Option BasicDescriptors) : Row :=
  if smiles = "" then [("error", Value.str "No SMILES string provided")]
  else calculate_properties basic

/-! ## Drug-likeness filters (src/chatmol/properties.py lines 735-1028)

Each numeric filter calls `calculate_properties` / `calculate_selected_properties`
and reads the named descriptor keys.  `calculate_all_properties` initializes
every numeric descriptor key to `float('nan')` before the `try` block, so
`calculate_selected_properties` always returns every requested key below
(hence the `.get(key, default)` fallbacks in the filter sources are dead code)
and the value is NaN exactly when parsing or that descriptor's computation
failed.  The record of descriptor values a filter reads is therefore modelled
as a structure of `PyFloat` fields. -/

/-- The numeric descriptor values the filters read (each is NaN when
unavailable). -/
structure MolProps where
  molecular_weight : PyFloat
  logp : PyFloat
  num_h_donors : PyFloat
  num_h_acceptors : PyFloat
  num_rotatable_bonds : PyFloat
  tpsa : PyFloat
  heavy_atom_count : PyFloat
  mol_mr : PyFloat
  ring_count : PyFloat
deriving DecidableEq, Repr

/-- All-NaN descriptor record: what `calculate_selected_properties` yields for
an unparseable SMILES. -/
def nanProps : MolProps :=
  { molecular_weight := PyFloat.nan, logp := PyFloat.nan,
    num_h_donors := PyFloat.nan, num_h_acceptors := PyFloat.nan,
    num_rotatable_bonds := PyFloat.nan, tpsa := PyFloat.nan,
    heavy_atom_count := PyFloat.nan, mol_mr := PyFloat.nan,
    ring_count := PyFloat.nan }

/-- Result dict of `check_lipinski_rule`. -/
structure LipinskiResult where
  molecular_weight_ok : Bool
  logp_ok : Bool
  h_donors_ok : Bool
  h_acceptors_ok : Bool
  all_rules_passed : Bool
deriving DecidableEq, Repr

/-- `check_lipinski_rule` (src/chatmol/properties.py lines 735-776):
MW ≤ 500, LogP ≤ 5, H-donors ≤ 5, H-acceptors ≤ 10; the aggregate is the
conjunction of the four individual flags. -/
def check_lipinski_rule (props : MolProps) : LipinskiResult :=
  let mwOk := pyLe props.molecular_weight (PyFloat.val 500)
  let logpOk := pyLe props.logp (PyFloat.val 5)
  let hdOk := pyLe props.num_h_donors (PyFloat.val 5)
  let haOk := pyLe props.num_h_acceptors (PyFloat.val 10)
  { molecular_weight_ok := mwOk
    logp_ok := logpOk
    h_donors_ok := hdOk
    h_acceptors_ok := haOk
    all_rules_passed := mwOk && logpOk && hdOk && haOk }

/-- Result dict of `check_veber_rules`. -/
structure VeberResult where
  rotatable_bonds_ok : Bool
  tpsa_ok : Bool
  all_rules_passed : Bool
deriving DecidableEq, Repr

/-- `check_veber_rules` (src/chatmol/properties.py lines 779-815):
rotatable bonds ≤ 10, TPSA ≤ 140. -/
def check_veber_rules (props : MolProps) : VeberResult :=
  let rbOk := pyLe props.num_rotatable_bonds (PyFloat.val 10)
  let tpsaOk := pyLe props.tpsa (PyFloat.val 140)
  { rotatable_bonds_ok := rbOk
    tpsa_ok := tpsaOk
    all_rules_passed := rbOk && tpsaOk }

/-- Result dict of `check_ghose_filter`. -/
structure GhoseResult where
  molecular_weight_ok : Bool
  logp_ok : Bool
  atom_count_ok : Bool
  molar_refractivity_ok : Bool
  all_rules_passed : Bool
deriving DecidableEq, Repr

/-- `check_ghose_filter` (src/chatmol/properties.py lines 818-867):
160 ≤ MW ≤ 480, −0.4 ≤ LogP ≤ 5.6, 20 ≤ heavy atoms ≤ 70,
40 ≤ molar refractivity ≤ 130 (Python chained comparisons). -/
def check_ghose_filter (props : MolProps) : GhoseResult :=
  let mwOk := pyLe (PyFloat.val 160) props.molecular_weight &&
    pyLe props.molecular_weight (PyFloat.val 480)
  let logpOk := pyLe (PyFloat.val (-0.4)) props.logp &&
    pyLe props.logp (PyFloat.val 5.6)
  let atomOk := pyLe (PyFloat.val 20) props.heavy_atom_count &&
    pyLe props.heavy_atom_count (PyFloat.val 70)
  let mrOk := pyLe (PyFloat.val 40) props.mol_mr &&
    pyLe props.mol_mr (PyFloat.val 130)
  { molecular_weight_ok := mwOk
    logp_ok := logpOk
    atom_count_ok := atomOk
    molar_refractivity_ok := mrOk
    all_rules_passed := mwOk && logpOk && atomOk && mrOk }

/-- Result dict of `check_egan_filter`. -/
structure EganResult where
  logp_ok : Bool
  tpsa_ok : Bool
  all_rules_passed : Bool
deriving DecidableEq, Repr

/-- `check_egan_filter` (src/chatmol/properties.py lines 924-963):
LogP ≤ 5.88, TPSA ≤ 131.6. -/
def check_egan_filter (props : MolProps) : EganResult :=
  let logpOk := pyLe props.logp (PyFloat.val 5.88)
  let tpsaOk := pyLe props.tpsa (PyFloat.val 131.6)
  { logp_ok := logpOk
    tpsa_ok := tpsaOk
    all_rules_passed := logpOk && tpsaOk }

/-- Result dict of `check_muegge_filter`. -/
structure MueggeResult where
  molecular_weight_ok : Bool
  logp_ok : Bool
  tpsa_ok : Bool
  ring_count_ok : Bool
  h_acceptors_ok : Bool
  h_donors_ok : Bool
  rotatable_bonds_ok : Bool
  all_rules_passed : Bool
deriving DecidableEq, Repr

/-- `check_muegge_filter` (src/chatmol/properties.py lines 966-1028):
200 ≤ MW ≤ 600, −2 ≤ LogP ≤ 5, TPSA ≤ 150, rings ≤ 7, H-acceptors ≤ 10,
H-donors ≤ 5, and (strictly) rotatable bonds < 15. -/
def check_muegge_filter (props : MolProps) : MueggeResult :=
  let mwOk := pyLe (PyFloat.val 200) props.molecular_weight &&
    pyLe props.molecular_weight (PyFloat.val 600)
  let logpOk := pyLe (PyFloat.val (-2)) props.logp &&
    pyLe props.logp (PyFloat.val 5)
  let tpsaOk := pyLe props.tpsa (PyFloat.val 150)
  let ringOk := pyLe props.ring_count (PyFloat.val 7)
  let haOk := pyLe props.num_h_acceptors (PyFloat.val 10)
  let hdOk := pyLe props.num_h_donors (PyFloat.val 5)
  let rbOk := pyLt props.num_rotatable_bonds (PyFloat.val 15)
  { molecular_weight_ok := mwOk
    logp_ok := logpOk
    tpsa_ok := tpsaOk
    ring_count_ok := ringOk
    h_acceptors_ok := haOk
    h_donors_ok := hdOk
    rotatable_bonds_ok := rbOk
    all_rules_passed := mwOk && logpOk && tpsaOk && ringOk && haOk && hdOk && rbOk }

/-- One PAINS catalog match entry `{description, smarts}`. -/
structure PainsAlert where
  description : String
  smarts : Option String
deriving DecidableEq, Repr

/-- Result dict of `check_pains_filter`. -/
structure PainsResult where
  pains_free : Bool
  num_alerts : Nat
  matching_alerts : List PainsAlert
deriving DecidableEq, Repr

/-- `check_pains_filter` (src/chatmol/properties.py lines 870-921).  The input
oracle is `Option.none` when `Chem.MolFromSmiles` returns `None` (parse
failure), and `some ms` when the molecule parsed and the PAINS catalog search
returned the match list `ms` (`catalog.HasMatch` is true iff `ms` is
non-empty).  The result dict is initialized to the passing state
(`pains_free = True`, no alerts) and is returned unchanged on parse
failure. -/
def check_pains_filter : Option (List PainsAlert) → PainsResult
  | Option.none =>
      { pains_free := true, num_alerts := 0, matching_alerts := [] }
  | some ms =>
      if ms.isEmpty then
        { pains_free := true, num_alerts := 0, matching_alerts := [] }
      else
        { pains_free := false, num_alerts := ms.length, matching_alerts := ms }

/-- Result dict of `check_all_druglikeness_filters` (the six sub-dicts are
always filled in since no embedded operation can raise). -/
structure AllFiltersResult where
  lipinski : LipinskiResult
  veber : VeberResult
  ghose : GhoseResult
  egan : EganResult
  muegge : MueggeResult
  pains : PainsResult
  all_filters_passed : Bool
deriving DecidableEq, Repr

/-- `check_all_druglikeness_filters` (src/chatmol/properties.py lines
1031-1077): runs all six rule-sets on the molecule's descriptor values and
sets `all_filters_passed` to the conjunction of the five numeric aggregates
and the PAINS `pains_free` flag. -/
def check_all_druglikeness_filters (props : MolProps)
    (painsIn : Option (List PainsAlert)) : AllFiltersResult :=
  let l := check_lipinski_rule props
  let v := check_veber_rules props
  let g := check_ghose_filter props
  let e := check_egan_filter props
  let m := check_muegge_filter props
  let p := check_pains_filter painsIn
  { lipinski := l, veber := v, ghose := g, egan := e, muegge := m, pains := p
    all_filters_passed := l.all_rules_passed && v.all_rules_passed &&
      g.all_rules_passed && e.all_rules_passed && m.all_rules_passed &&
      p.pains_free }

/-! ## The Feature Aggregator `calculate_molecular_features`

The repository's Feature Aggregator `calculate_molecular_features` is exported
by `src/chatmol/__init__.py` and exercised by `src/tests/test_properties.py`,
but its definition is not present under `src/` (the `properties.py` variant in
`src/` only has `calculate_properties` / `calculate_all_properties`, whose
error representation differs).  It is therefore modelled from the spec. -/

/-- Modelled from the spec: the Feature Aggregator
`aggregate_features(smiles) -> FeatureRecord` (spec section 4.2), implemented
in the repository by `calculate_molecular_features` which is missing from
`src/` (only its export in `chatmol/__init__.py` and its tests are present).
Per the spec: an empty SMILES yields only `{smiles: smiles, error: "empty or
invalid"}`; a parse failure yields `{smiles: smiles}` with no descriptor keys
added; on success every catalog descriptor is computed (a per-descriptor
failure sets the key to null without aborting) and the convention-discovered
auxiliary (fragment) descriptors are appended.  Parsing and descriptor
computation are oracles: `parsed` is the parse outcome, `compute k` the value
recorded for catalog key `k` (`Value.none` when the computation failed), and
`aux` the dynamically discovered auxiliary descriptor entries. -/
def calculate_molecular_features (smiles : String) (parsed : Option Unit)
    (catalog : List String) (compute : String → Value)
    (aux : List (String × Value)) : Row :=
  if smiles = "" then
    [("smiles", Value.str smiles), ("error", Value.str "empty or invalid")]
  else
    match parsed with
    | Option.none => [("smiles", Value.str smiles)]
    | some _ =>
        ("smiles", Value.str smiles) ::
          (catalog.map (fun k => (k, compute k)) ++ aux)

/-! ## `chatmol/io.py`: the CSV batch driver `process_csv_data`

pandas is external: a `DataFrame` is modelled by `Table` (named columns, rows
as association lists whose keys are exactly the columns), `pd.read_csv` by the
`parsed` oracle (`Option.none` when reading raised, caught by the enclosing
`except`), and exception message text by the opaque `excMsg` parameter. -/

/-- A pandas DataFrame as used by `process_csv_data`: ordered column names and
rows (each row has a cell for every column). -/
structure Table where
  cols : List String
  rows : List Row
deriving DecidableEq, Repr

/-- `result_df[column_name] = None`: creates (or overwrites) a whole column
with `None`; a new column is appended on the right. -/
def setColumnNone (t : Table) (c : String) : Table :=
  { cols := if t.cols.contains c then t.cols else t.cols ++ [c]
    rows := t.rows.map (fun r => setCell r c Value.none) }

/-- The envelope returned by the batch entry point: either
`{"error": ...}` or the result dict of src/chatmol/io.py lines 159-165
(the result table is kept as a table; its CSV serialization is external). -/
inductive CsvEnvelope where
  | error (msg : String)
  | result (table : Table) (message : String) (smiles_column : String)
      (properties_added : List String) (filters_applied : List String)
deriving DecidableEq, Repr

/-- The table carried by a `result` envelope (empty table for `error`). -/
def CsvEnvelope.resTable : CsvEnvelope → Table
  | CsvEnvelope.result t _ _ _ _ => t
  | CsvEnvelope.error _ => { cols := [], rows := [] }

/-- The keys of the `DRUGLIKENESS_FILTERS` registry
(src/chatmol/io.py lines 23-54), in insertion order. -/
def DRUGLIKENESS_FILTER_NAMES : List String :=
  ["lipinski", "veber", "ghose", "egan", "muegge", "pains"]

/-- The `column_name` entry of each registered filter
(src/chatmol/io.py lines 23-54). -/
def filter_column_name : String → String
  | "lipinski" => "lipinski_pass"
  | "veber" => "veber_pass"
  | "ghose" => "ghose_pass"
  | "egan" => "egan_pass"
  | "muegge" => "muegge_pass"
  | "pains" => "pains_free"
  | s => s

/-- `if 'all' in filters: filters = list(DRUGLIKENESS_FILTERS.keys())`
(src/chatmol/io.py lines 101-103). -/
def expand_filters (filters : List String) : List String :=
  if filters.contains "all" then DRUGLIKENESS_FILTER_NAMES else filters

/-- `if not smiles_column: smiles_column = df.columns[-1]`
(src/chatmol/io.py lines 90-91): an omitted or empty column name defaults to
the rightmost column (`Option.none` when the frame has no columns at all, in
which case the source raises and the `except` produces an error envelope). -/
def resolve_smiles_column (smiles_column : Option String)
    (cols : List String) : Option String :=
  match smiles_column with
  | some s => if s = "" then cols.getLast? else some s
  | Option.none => cols.getLast?

/-- Column naming for a computed property (src/chatmol/io.py lines 123-127):
renamed to `<prop>_calculated` only when the property already names a column
of the original frame AND is not the SMILES column itself. -/
def merge_column_name (cols : List String) (sc p : String) : String :=
  if cols.contains p && p != sc then p ++ "_calculated" else p

/-- `filter_info["function"](smiles)[filter_info["result_key"]]`: running a
registered filter on the molecule's descriptor values and extracting the
boolean under its `result_key` (`all_rules_passed`, or `pains_free` for
`pains`).  Unregistered names never reach this function. -/
def filter_eval (props : MolProps) (painsIn : Option (List PainsAlert)) :
    String → Bool
  | "lipinski" => (check_lipinski_rule props).all_rules_passed
  | "veber" => (check_veber_rules props).all_rules_passed
  | "ghose" => (check_ghose_filter props).all_rules_passed
  | "egan" => (check_egan_filter props).all_rules_passed
  | "muegge" => (check_muegge_filter props).all_rules_passed
  | "pains" => (check_pains_filter painsIn).pains_free
  | _ => false

/-- `process_csv_data` (src/chatmol/io.py lines 56-171).  Faithful to the
source control flow: default `properties = ["molecular_weight"]` and
`filters = []`; empty input and a missing declared SMILES column return error
envelopes; `"all"` expands to every registered filter; filter result columns
are initialized to `None`, then property columns (renamed to
`<prop>_calculated` when the property already names a column of the ORIGINAL
frame other than the SMILES column); finally one pass over the rows reads the
SMILES cell (from the frame AFTER the column initialization), computes
`calculate_properties` for the requested properties and each registered
filter's boolean.  Oracles: `parsed` is the `pd.read_csv` outcome, `excMsg`
the text of a caught exception, `basic`/`sel`/`painsOf` give the RDKit results
for a SMILES cell value.  A duplicated name in `properties` writes the same
cell twice instead of once (the source deduplicates through the
`property_columns` dict), with identical results. -/
def process_csv_data (csv_content : String) (smiles_column : Option String)
    (properties? : Option (List String)) (filters? : Option (List String))
    (parsed : Option Table) (excMsg : String)
    (basic : Value → Option BasicDescriptors) (sel : Value → MolProps)
    (painsOf : Value → Option (List PainsAlert)) : CsvEnvelope :=
  let properties := properties?.getD ["molecular_weight"]
  let filters0 := filters?.getD []
  if csv_content = "" then CsvEnvelope.error "No CSV data provided"
  else
    match parsed with
    | Option.none => CsvEnvelope.error ("An error occurred: " ++ excMsg)
    | some df =>
      match resolve_smiles_column smiles_column df.cols with
      | Option.none => CsvEnvelope.error ("An error occurred: " ++ excMsg)
      | some sc =>
        if df.cols.contains sc = false then
          CsvEnvelope.error
            ("Specified SMILES column '" ++ sc ++ "' not found in CSV data")
        else
          let filters := expand_filters filters0
          let filterConfigs :=
            (filters.filter (fun n => DRUGLIKENESS_FILTER_NAMES.contains n)).map
              (fun n => (n, filter_column_name n))
          let df1 := filterConfigs.foldl (fun t c => setColumnNone t c.2) df
          let property_columns := properties.map
            (fun p => (p, merge_column_name df.cols sc p))
          let df2 := property_columns.foldl (fun t pc => setColumnNone t pc.2) df1
          let rows2 := df2.rows.map (fun row =>
            let smiles := getValD row sc
            let row1 :=
              if properties.isEmpty then row
              else
                let props := calculate_properties (basic smiles)
                property_columns.foldl (fun r pc =>
                  match getRow props pc.1 with
                  | some v => setCell r pc.2 v
                  | Option.none => r) row
            filterConfigs.foldl (fun r c =>
              setCell r c.2
                (Value.bool (filter_eval (sel smiles) (painsOf smiles) c.1))) row1)
          CsvEnvelope.result { cols := df2.cols, rows := rows2 }
            ("Molecular properties and filters applied. Rows processed: " ++
              toString rows2.length)
            sc properties (filterConfigs.map Prod.fst)

/-! ## Helper lemmas -/

/-- Updating a dict at one key does not change lookups at any other key. -/
theorem getRow_setCell_ne (r : Row) (c cx : String) (v : Value) (h : cx ≠ c) :
    getRow (setCell r c v) cx = getRow r cx := by
  have h2 : c ≠ cx := Ne.symm h
  induction r with
  | nil => simp [setCell, getRow, h2]
  | cons hd t ih =>
      obtain ⟨k, w⟩ := hd
      by_cases hk : k = c
      · subst hk
        simp [setCell, getRow, h2]
      · simp only [setCell, if_neg hk, getRow, ih]

/-- A string is never equal to itself with `"_calculated"` appended. -/
theorem ne_append_calculated (p : String) : p ≠ p ++ "_calculated" := by
  intro h
  have hlen := congrArg String.length h
  rw [String.length_append] at hlen
  have h11 : "_calculated".length = 11 := rfl
  rw [h11] at hlen
  omega

/-! ## Claims -/

/-- C1: for a record in which all four dependent values (molecular weight,
LogP, H-bond donors, H-bond acceptors) are present, the Lipinski aggregate
`all_rules_passed` is true iff all four component predicates hold
(MW ≤ 500, LogP ≤ 5, H-donors ≤ 5, H-acceptors ≤ 10), and every predicate is
always evaluated and recorded individually (each flag equals its own
comparison regardless of the others, and the aggregate is their
conjunction). -/
theorem c1_lipinski_aggregate_iff (mw lp hd ha : ℚ) (rb tp hc mr rc : PyFloat) :
    ((check_lipinski_rule ⟨PyFloat.val mw, PyFloat.val lp, PyFloat.val hd,
        PyFloat.val ha, rb, tp, hc, mr, rc⟩).all_rules_passed = true ↔
      (mw ≤ 500 ∧ lp ≤ 5 ∧ hd ≤ 5 ∧ ha ≤ 10)) ∧
    (check_lipinski_rule ⟨PyFloat.val mw, PyFloat.val lp, PyFloat.val hd,
        PyFloat.val ha, rb, tp, hc, mr, rc⟩).molecular_weight_ok =
      decide (mw ≤ 500) ∧
    (check_lipinski_rule ⟨PyFloat.val mw, PyFloat.val lp, PyFloat.val hd,
        PyFloat.val ha, rb, tp, hc, mr, rc⟩).logp_ok = decide (lp ≤ 5) ∧
    (check_lipinski_rule ⟨PyFloat.val mw, PyFloat.val lp, PyFloat.val hd,
        PyFloat.val ha, rb, tp, hc, mr, rc⟩).h_donors_ok = decide (hd ≤ 5) ∧
    (check_lipinski_rule ⟨PyFloat.val mw, PyFloat.val lp, PyFloat.val hd,
        PyFloat.val ha, rb, tp, hc, mr, rc⟩).h_acceptors_ok = decide (ha ≤ 10) ∧
    (check_lipinski_rule ⟨PyFloat.val mw, PyFloat.val lp, PyFloat.val hd,
        PyFloat.val ha, rb, tp, hc, mr, rc⟩).all_rules_passed =
      ((check_lipinski_rule ⟨PyFloat.val mw, PyFloat.val lp, PyFloat.val hd,
          PyFloat.val ha, rb, tp, hc, mr, rc⟩).molecular_weight_ok &&
       (check_lipinski_rule ⟨PyFloat.val mw, PyFloat.val lp, PyFloat.val hd,
          PyFloat.val ha, rb, tp, hc, mr, rc⟩).logp_ok &&
       (check_lipinski_rule ⟨PyFloat.val mw, PyFloat.val lp, PyFloat.val hd,
          PyFloat.val ha, rb, tp, hc, mr, rc⟩).h_donors_ok &&
       (check_lipinski_rule ⟨PyFloat.val mw, PyFloat.val lp, PyFloat.val hd,
          PyFloat.val ha, rb, tp, hc, mr, rc⟩).h_acceptors_ok) := by
  refine ⟨?_, rfl, rfl, rfl, rfl, rfl⟩
  simp [check_lipinski_rule, pyLe, and_assoc]

/-- C2: for every numeric predicate of every rule-set, if the prerequisite
descriptor value is unavailable (NaN, which is how a failed parse or a failed
descriptor computation is recorded in the value a filter reads), that
predicate evaluates to false — it is recorded as an individual `false` flag,
never skipped or treated as a pass (the embedded functions are total, so no
exception is possible).  One conjunct per (rule-set, predicate) pair, with all
other descriptor values arbitrary. -/
theorem c2_unavailable_predicate_false (props : MolProps) :
    (check_lipinski_rule
      { props with molecular_weight := PyFloat.nan }).molecular_weight_ok = false ∧
    (check_lipinski_rule { props with logp := PyFloat.nan }).logp_ok = false ∧
    (check_lipinski_rule
      { props with num_h_donors := PyFloat.nan }).h_donors_ok = false ∧
    (check_lipinski_rule
      { props with num_h_acceptors := PyFloat.nan }).h_acceptors_ok = false ∧
    (check_veber_rules
      { props with num_rotatable_bonds := PyFloat.nan }).rotatable_bonds_ok = false ∧
    (check_veber_rules { props with tpsa := PyFloat.nan }).tpsa_ok = false ∧
    (check_ghose_filter
      { props with molecular_weight := PyFloat.nan }).molecular_weight_ok = false ∧
    (check_ghose_filter { props with logp := PyFloat.nan }).logp_ok = false ∧
    (check_ghose_filter
      { props with heavy_atom_count := PyFloat.nan }).atom_count_ok = false ∧
    (check_ghose_filter
      { props with mol_mr := PyFloat.nan }).molar_refractivity_ok = false ∧
    (check_egan_filter { props with logp := PyFloat.nan }).logp_ok = false ∧
    (check_egan_filter { props with tpsa := PyFloat.nan }).tpsa_ok = false ∧
    (check_muegge_filter
      { props with molecular_weight := PyFloat.nan }).molecular_weight_ok = false ∧
    (check_muegge_filter { props with logp := PyFloat.nan }).logp_ok = false ∧
    (check_muegge_filter { props with tpsa := PyFloat.nan }).tpsa_ok = false ∧
    (check_muegge_filter
      { props with ring_count := PyFloat.nan }).ring_count_ok = false ∧
    (check_muegge_filter
      { props with num_h_acceptors := PyFloat.nan }).h_acceptors_ok = false ∧
    (check_muegge_filter
      { props with num_h_donors := PyFloat.nan }).h_donors_ok = false ∧
    (check_muegge_filter
      { props with num_rotatable_bonds := PyFloat.nan }).rotatable_bonds_ok = false :=
  ⟨rfl, rfl, rfl, rfl, rfl, rfl, rfl, rfl, rfl, rfl, rfl, rfl, rfl, rfl, rfl,
   rfl, rfl, rfl, rfl⟩

/-- C6: with all descriptor values present, every numeric bound of every
rule-set is the stated non-strict comparison (≤ / ≥), except the Muegge
rotatable-bonds predicate which is strictly `< 15`; in particular a value of
exactly 15 rotatable bonds fails that predicate while values sitting exactly
on any other bound (e.g. TPSA = 150) pass theirs. -/
theorem c6_muegge_strict_rotatable_bound (mw lp hd ha rb tp hc mr rc : ℚ) :
    (check_lipinski_rule ⟨PyFloat.val mw, PyFloat.val lp, PyFloat.val hd,
        PyFloat.val ha, PyFloat.val rb, PyFloat.val tp, PyFloat.val hc,
        PyFloat.val mr, PyFloat.val rc⟩).molecular_weight_ok =
      decide (mw ≤ 500) ∧
    (check_lipinski_rule ⟨PyFloat.val mw, PyFloat.val lp, PyFloat.val hd,
        PyFloat.val ha, PyFloat.val rb, PyFloat.val tp, PyFloat.val hc,
        PyFloat.val mr, PyFloat.val rc⟩).logp_ok = decide (lp ≤ 5) ∧
    (check_lipinski_rule ⟨PyFloat.val mw, PyFloat.val lp, PyFloat.val hd,
        PyFloat.val ha, PyFloat.val rb, PyFloat.val tp, PyFloat.val hc,
        PyFloat.val mr, PyFloat.val rc⟩).h_donors_ok = decide (hd ≤ 5) ∧
    (check_lipinski_rule ⟨PyFloat.val mw, PyFloat.val lp, PyFloat.val hd,
        PyFloat.val ha, PyFloat.val rb, PyFloat.val tp, PyFloat.val hc,
        PyFloat.val mr, PyFloat.val rc⟩).h_acceptors_ok = decide (ha ≤ 10) ∧
    (check_veber_rules ⟨PyFloat.val mw, PyFloat.val lp, PyFloat.val hd,
        PyFloat.val ha, PyFloat.val rb, PyFloat.val tp, PyFloat.val hc,
        PyFloat.val mr, PyFloat.val rc⟩).rotatable_bonds_ok =
      decide (rb ≤ 10) ∧
    (check_veber_rules ⟨PyFloat.val mw, PyFloat.val lp, PyFloat.val hd,
        PyFloat.val ha, PyFloat.val rb, PyFloat.val tp, PyFloat.val hc,
        PyFloat.val mr, PyFloat.val rc⟩).tpsa_ok = decide (tp ≤ 140) ∧
    (check_ghose_filter ⟨PyFloat.val mw, PyFloat.val lp, PyFloat.val hd,
        PyFloat.val ha, PyFloat.val rb, PyFloat.val tp, PyFloat.val hc,
        PyFloat.val mr, PyFloat.val rc⟩).molecular_weight_ok =
      (decide (160 ≤ mw) && decide (mw ≤ 480)) ∧
    (check_ghose_filter ⟨PyFloat.val mw, PyFloat.val lp, PyFloat.val hd,
        PyFloat.val ha, PyFloat.val rb, PyFloat.val tp, PyFloat.val hc,
        PyFloat.val mr, PyFloat.val rc⟩).logp_ok =
      (decide (-0.4 ≤ lp) && decide (lp ≤ 5.6)) ∧
    (check_ghose_filter ⟨PyFloat.val mw, PyFloat.val lp, PyFloat.val hd,
        PyFloat.val ha, PyFloat.val rb, PyFloat.val tp, PyFloat.val hc,
        PyFloat.val mr, PyFloat.val rc⟩).atom_count_ok =
      (decide (20 ≤ hc) && decide (hc ≤ 70)) ∧
    (check_ghose_filter ⟨PyFloat.val mw, PyFloat.val lp, PyFloat.val hd,
        PyFloat.val ha, PyFloat.val rb, PyFloat.val tp, PyFloat.val hc,
        PyFloat.val mr, PyFloat.val rc⟩).molar_refractivity_ok =
      (decide (40 ≤ mr) && decide (mr ≤ 130)) ∧
    (check_egan_filter ⟨PyFloat.val mw, PyFloat.val lp, PyFloat.val hd,
        PyFloat.val ha, PyFloat.val rb, PyFloat.val tp, PyFloat.val hc,
        PyFloat.val mr, PyFloat.val rc⟩).logp_ok = decide (lp ≤ 5.88) ∧
    (check_egan_filter ⟨PyFloat.val mw, PyFloat.val lp, PyFloat.val hd,
        PyFloat.val ha, PyFloat.val rb, PyFloat.val tp, PyFloat.val hc,
        PyFloat.val mr, PyFloat.val rc⟩).tpsa_ok = decide (tp ≤ 131.6) ∧
    (check_muegge_filter ⟨PyFloat.val mw, PyFloat.val lp, PyFloat.val hd,
        PyFloat.val ha, PyFloat.val rb, PyFloat.val tp, PyFloat.val hc,
        PyFloat.val mr, PyFloat.val rc⟩).molecular_weight_ok =
      (decide (200 ≤ mw) && decide (mw ≤ 600)) ∧
    (check_muegge_filter ⟨PyFloat.val mw, PyFloat.val lp, PyFloat.val hd,
        PyFloat.val ha, PyFloat.val rb, PyFloat.val tp, PyFloat.val hc,
        PyFloat.val mr, PyFloat.val rc⟩).logp_ok =
      (decide (-2 ≤ lp) && decide (lp ≤ 5)) ∧
    (check_muegge_filter ⟨PyFloat.val mw, PyFloat.val lp, PyFloat.val hd,
        PyFloat.val ha, PyFloat.val rb, PyFloat.val tp, PyFloat.val hc,
        PyFloat.val mr, PyFloat.val rc⟩).tpsa_ok = decide (tp ≤ 150) ∧
    (check_muegge_filter ⟨PyFloat.val mw, PyFloat.val lp, PyFloat.val hd,
        PyFloat.val ha, PyFloat.val rb, PyFloat.val tp, PyFloat.val hc,
        PyFloat.val mr, PyFloat.val rc⟩).ring_count_ok = decide (rc ≤ 7) ∧
    (check_muegge_filter ⟨PyFloat.val mw, PyFloat.val lp, PyFloat.val hd,
        PyFloat.val ha, PyFloat.val rb, PyFloat.val tp, PyFloat.val hc,
        PyFloat.val mr, PyFloat.val rc⟩).h_acceptors_ok = decide (ha ≤ 10) ∧
    (check_muegge_filter ⟨PyFloat.val mw, PyFloat.val lp, PyFloat.val hd,
        PyFloat.val ha, PyFloat.val rb, PyFloat.val tp, PyFloat.val hc,
        PyFloat.val mr, PyFloat.val rc⟩).h_donors_ok = decide (hd ≤ 5) ∧
    (check_muegge_filter ⟨PyFloat.val mw, PyFloat.val lp, PyFloat.val hd,
        PyFloat.val ha, PyFloat.val rb, PyFloat.val tp, PyFloat.val hc,
        PyFloat.val mr, PyFloat.val rc⟩).rotatable_bonds_ok =
      decide (rb < 15) ∧
    (check_muegge_filter
      { nanProps with num_rotatable_bonds := PyFloat.val 15 }).rotatable_bonds_ok =
      false ∧
    (check_muegge_filter
      { nanProps with tpsa := PyFloat.val 150 }).tpsa_ok = true := by
  refine ⟨rfl, rfl, rfl, rfl, rfl, rfl, rfl, rfl, rfl, rfl, rfl, rfl, rfl, rfl,
    rfl, rfl, rfl, rfl, rfl, ?_, ?_⟩ <;> decide

/-- C10: for a SMILES string that fails to parse, the PAINS structural-alert
check reports `pains_free = true` with `num_alerts = 0` and an empty
`matching_alerts` list — the unparseable molecule passes the structural-alert
filter (it fails open), unlike the numeric rule-sets, whose aggregates are all
false on the all-NaN descriptor record of an unparseable molecule. -/
theorem c10_pains_fails_open_on_parse_failure :
    check_pains_filter Option.none =
      { pains_free := true, num_alerts := 0, matching_alerts := [] } ∧
    (check_lipinski_rule nanProps).all_rules_passed = false ∧
    (check_veber_rules nanProps).all_rules_passed = false ∧
    (check_ghose_filter nanProps).all_rules_passed = false ∧
    (check_egan_filter nanProps).all_rules_passed = false ∧
    (check_muegge_filter nanProps).all_rules_passed = false :=
  ⟨rfl, rfl, rfl, rfl, rfl, rfl⟩

/-- C4: requesting the rule-set name "all" expands to every one of the six
registered rule-sets (in the batch driver's registry order), and
`check_all_druglikeness_filters` evaluates all six and sets the overall pass
flag to the conjunction of the six aggregates, the PAINS rule-set contributing
its `pains_free` (zero-matches) flag. -/
theorem c4_all_expands_and_overall_flag (props : MolProps)
    (painsIn : Option (List PainsAlert)) (fs : List String)
    (hall : fs.contains "all" = true) :
    (check_all_druglikeness_filters props painsIn).lipinski =
      check_lipinski_rule props ∧
    (check_all_druglikeness_filters props painsIn).veber =
      check_veber_rules props ∧
    (check_all_druglikeness_filters props painsIn).ghose =
      check_ghose_filter props ∧
    (check_all_druglikeness_filters props painsIn).egan =
      check_egan_filter props ∧
    (check_all_druglikeness_filters props painsIn).muegge =
      check_muegge_filter props ∧
    (check_all_druglikeness_filters props painsIn).pains =
      check_pains_filter painsIn ∧
    (check_all_druglikeness_filters props painsIn).all_filters_passed =
      ((check_lipinski_rule props).all_rules_passed &&
       (check_veber_rules props).all_rules_passed &&
       (check_ghose_filter props).all_rules_passed &&
       (check_egan_filter props).all_rules_passed &&
       (check_muegge_filter props).all_rules_passed &&
       (check_pains_filter painsIn).pains_free) ∧
    expand_filters fs = DRUGLIKENESS_FILTER_NAMES := by
  refine ⟨rfl, rfl, rfl, rfl, rfl, rfl, rfl, ?_⟩
  have hmem : "all" ∈ fs := by simpa using hall
  simp [expand_filters, hmem]

/-- Witness for C4 at the concrete request `["all"]` and the all-NaN
descriptor record. -/
theorem c4_all_expands_and_overall_flag_witness :
    (["all"].contains "all" = true) ∧
    ((check_all_druglikeness_filters nanProps Option.none).lipinski =
      check_lipinski_rule nanProps ∧
    (check_all_druglikeness_filters nanProps Option.none).veber =
      check_veber_rules nanProps ∧
    (check_all_druglikeness_filters nanProps Option.none).ghose =
      check_ghose_filter nanProps ∧
    (check_all_druglikeness_filters nanProps Option.none).egan =
      check_egan_filter nanProps ∧
    (check_all_druglikeness_filters nanProps Option.none).muegge =
      check_muegge_filter nanProps ∧
    (check_all_druglikeness_filters nanProps Option.none).pains =
      check_pains_filter Option.none ∧
    (check_all_druglikeness_filters nanProps Option.none).all_filters_passed =
      ((check_lipinski_rule nanProps).all_rules_passed &&
       (check_veber_rules nanProps).all_rules_passed &&
       (check_ghose_filter nanProps).all_rules_passed &&
       (check_egan_filter nanProps).all_rules_passed &&
       (check_muegge_filter nanProps).all_rules_passed &&
       (check_pains_filter Option.none).pains_free) ∧
    expand_filters ["all"] = DRUGLIKENESS_FILTER_NAMES) :=
  ⟨by decide,
   c4_all_expands_and_overall_flag nanProps Option.none ["all"] (by decide)⟩

/-- C3 (Feature Aggregator modelled from the spec): for a SMILES for which
parsing fails, the aggregation result contains no descriptor keys at all —
every key of the record is one of the reserved keys `smiles` / `error`. -/
theorem c3_parse_failure_no_descriptor_keys (smiles : String)
    (catalog : List String) (compute : String → Value)
    (aux : List (String × Value)) :
    ((calculate_molecular_features smiles Option.none catalog compute aux).map
      Prod.fst).all (fun k => k == "smiles" || k == "error") = true := by
  by_cases h : smiles = "" <;>
    simp [calculate_molecular_features, h]

/-- C7 (Feature Aggregator modelled from the spec): the aggregation result
always maps the reserved key `smiles` to the input SMILES string itself
(echoed verbatim) — in particular for every valid (parsed) SMILES. -/
theorem c7_smiles_echoed_verbatim (smiles : String) (parsed : Option Unit)
    (catalog : List String) (compute : String → Value)
    (aux : List (String × Value)) :
    getRow (calculate_molecular_features smiles parsed catalog compute aux)
      "smiles" = some (Value.str smiles) := by
  by_cases h : smiles = ""
  · simp [calculate_molecular_features, h, getRow]
  · cases parsed <;> simp [calculate_molecular_features, h, getRow]

/-- C8 (Feature Aggregator modelled from the spec): an empty SMILES input
yields a record containing exactly the two entries
`{smiles: smiles, error: "empty or invalid"}` and no other keys. -/
theorem c8_empty_smiles_record (parsed : Option Unit) (catalog : List String)
    (compute : String → Value) (aux : List (String × Value)) :
    calculate_molecular_features "" parsed catalog compute aux =
      [("smiles", Value.str ""), ("error", Value.str "empty or invalid")] :=
  rfl

/-- C9: the batch CSV entry point never throws past its boundary — it is a
total function into envelopes: (1) empty CSV input returns the error envelope
`{"error": "No CSV data provided"}`; (2) a declared structure column missing
from the table returns the error envelope naming that column; (3) every
invocation returns either an `{error: string}` envelope or a result
envelope. -/
theorem c9_batch_error_envelopes :
    (∀ (sc : Option String) (props fs : Option (List String))
        (parsed : Option Table) (em : String)
        (basic : Value → Option BasicDescriptors) (sel : Value → MolProps)
        (painsOf : Value → Option (List PainsAlert)),
        process_csv_data "" sc props fs parsed em basic sel painsOf =
          CsvEnvelope.error "No CSV data provided") ∧
    (∀ (cc sc : String) (df : Table) (props fs : Option (List String))
        (em : String) (basic : Value → Option BasicDescriptors)
        (sel : Value → MolProps) (painsOf : Value → Option (List PainsAlert)),
        cc ≠ "" → sc ≠ "" → df.cols.contains sc = false →
        process_csv_data cc (some sc) props fs (some df) em basic sel painsOf =
          CsvEnvelope.error
            ("Specified SMILES column '" ++ sc ++ "' not found in CSV data")) ∧
    (∀ (cc : String) (sc : Option String) (props fs : Option (List String))
        (parsed : Option Table) (em : String)
        (basic : Value → Option BasicDescriptors) (sel : Value → MolProps)
        (painsOf : Value → Option (List PainsAlert)),
        (∃ msg, process_csv_data cc sc props fs parsed em basic sel painsOf =
          CsvEnvelope.error msg) ∨
        (∃ t msg c pa fa,
          process_csv_data cc sc props fs parsed em basic sel painsOf =
            CsvEnvelope.result t msg c pa fa)) := by
  refine ⟨?_, ?_, ?_⟩
  · intro sc props fs parsed em basic sel painsOf
    simp [process_csv_data]
  · intro cc sc df props fs em basic sel painsOf h1 h2 h3
    have h3m : sc ∉ df.cols := by simpa using h3
    simp [process_csv_data, resolve_smiles_column, h1, h2, h3m]
  · intro cc sc props fs parsed em basic sel painsOf
    cases hres : process_csv_data cc sc props fs parsed em basic sel painsOf with
    | error msg => exact Or.inl ⟨msg, rfl⟩
    | result t msg c pa fa => exact Or.inr ⟨t, msg, c, pa, fa, rfl⟩

/-- Witness for C9 at a concrete table whose declared structure column
`SMILES` does not exist. -/
theorem c9_batch_error_envelopes_witness :
    (("h" : String) ≠ "") ∧ (("SMILES" : String) ≠ "") ∧
    ((Table.mk ["ID", "Structure"]
        [[("ID", Value.str "1"),
          ("Structure", Value.str "CC(=O)OC1=CC=CC=C1C(=O)O")]]).cols.contains
      "SMILES" = false) ∧
    process_csv_data "h" (some "SMILES") Option.none Option.none
        (some (Table.mk ["ID", "Structure"]
          [[("ID", Value.str "1"),
            ("Structure", Value.str "CC(=O)OC1=CC=CC=C1C(=O)O")]])) ""
        (fun _ => Option.none) (fun _ => nanProps) (fun _ => Option.none) =
      CsvEnvelope.error
        "Specified SMILES column 'SMILES' not found in CSV data" :=
  ⟨by decide, by decide, by decide,
   c9_batch_error_envelopes.2.1 "h" "SMILES"
     (Table.mk ["ID", "Structure"]
       [[("ID", Value.str "1"),
         ("Structure", Value.str "CC(=O)OC1=CC=CC=C1C(=O)O")]])
     Option.none Option.none ""
     (fun _ => Option.none) (fun _ => nanProps) (fun _ => Option.none)
     (by decide) (by decide) (by decide)⟩

/-- C5 counterexample: a base table whose (rightmost, hence default structure)
column is named `molecular_weight` and holds the SMILES `"CCO"`, with the
requested property `molecular_weight`.  The key names an existing column, yet
the merged table has NO `molecular_weight_calculated` column and the original
column's value is NOT unchanged: the source skips the rename when the key
equals the SMILES column (io.py line 126), re-initializes that very column to
`None` (line 128), so the row loop then reads `None` instead of the SMILES and
stores the parse-failure placeholder over the original data. -/
theorem c5_counterexample :
    process_csv_data "h" Option.none (some ["molecular_weight"]) (some [])
        (some (Table.mk ["molecular_weight"]
          [[("molecular_weight", Value.str "CCO")]])) ""
        (fun _ => Option.none) (fun _ => nanProps) (fun _ => Option.none) =
      CsvEnvelope.result
        (Table.mk ["molecular_weight"]
          [[("molecular_weight", Value.num PyFloat.nan)]])
        "Molecular properties and filters applied. Rows processed: 1"
        "molecular_weight" ["molecular_weight"] [] ∧
    (process_csv_data "h" Option.none (some ["molecular_weight"]) (some [])
        (some (Table.mk ["molecular_weight"]
          [[("molecular_weight", Value.str "CCO")]])) ""
        (fun _ => Option.none) (fun _ => nanProps)
        (fun _ => Option.none)).resTable.cols.contains
      "molecular_weight_calculated" = false ∧
    getRow ((process_csv_data "h" Option.none (some ["molecular_weight"])
        (some [])
        (some (Table.mk ["molecular_weight"]
          [[("molecular_weight", Value.str "CCO")]])) ""
        (fun _ => Option.none) (fun _ => nanProps)
        (fun _ => Option.none)).resTable.rows.headD [])
      "molecular_weight" = some (Value.num PyFloat.nan) := by
  refine ⟨?_, ?_, ?_⟩ <;> decide

/-- C5 as amended: in the merge step of `process_csv_data`, a requested
property key that already names a base-table column and differs from the
structure (SMILES) column yields a new `<key>_calculated` column (assuming the
suffixed name is itself fresh) with the original column's values unchanged; a
key naming no existing column is used as-is and appended; but a key equal to
the structure column's name is used as-is even though it names an existing
column — no `_calculated` column is created and that column is overwritten. -/
theorem c5_merge_column_naming (df : Table) (cc sc p em : String)
    (basic : Value → Option BasicDescriptors) (sel : Value → MolProps)
    (painsOf : Value → Option (List PainsAlert))
    (hcc : cc ≠ "") (hsc0 : sc ≠ "") (hsc : df.cols.contains sc = true) :
    (df.cols.contains p = true → p ≠ sc →
      df.cols.contains (p ++ "_calculated") = false →
      (process_csv_data cc (some sc) (some [p]) (some []) (some df) em basic
          sel painsOf).resTable.cols = df.cols ++ [p ++ "_calculated"] ∧
      List.Forall₂ (fun r0 r1 => getRow r1 p = getRow r0 p) df.rows
        (process_csv_data cc (some sc) (some [p]) (some []) (some df) em basic
          sel painsOf).resTable.rows) ∧
    (df.cols.contains p = false →
      (process_csv_data cc (some sc) (some [p]) (some []) (some df) em basic
          sel painsOf).resTable.cols = df.cols ++ [p]) ∧
    (p = sc →
      (process_csv_data cc (some sc) (some [p]) (some []) (some df) em basic
          sel painsOf).resTable.cols = df.cols) := by
  have hmem : sc ∈ df.cols := by simpa using hsc
  refine ⟨?_, ?_, ?_⟩
  · intro hp hpne hccx
    have hpm : p ∈ df.cols := by simpa using hp
    have hcm : (p ++ "_calculated") ∉ df.cols := by simpa using hccx
    have hname : merge_column_name df.cols sc p = p ++ "_calculated" := by
      simp [merge_column_name, hpm, hpne]
    constructor
    · simp [process_csv_data, resolve_smiles_column, hcc, hsc0, hmem, hname,
        expand_filters, setColumnNone, CsvEnvelope.resTable, hcm]
    · simp [process_csv_data, resolve_smiles_column, hcc, hsc0, hmem, hname,
        expand_filters, setColumnNone, CsvEnvelope.resTable,
        List.forall₂_map_right_iff, List.forall₂_same]
      intro r hr
      cases hg : getRow (calculate_properties
          (basic (getValD (setCell r (p ++ "_calculated") Value.none) sc))) p with
      | none => simp [hg, getRow_setCell_ne _ _ _ _ (ne_append_calculated p)]
      | some v => simp [hg, getRow_setCell_ne _ _ _ _ (ne_append_calculated p)]
  · intro hp
    have hpm : p ∉ df.cols := by simpa using hp
    have hname : merge_column_name df.cols sc p = p := by
      simp [merge_column_name, hpm]
    simp [process_csv_data, resolve_smiles_column, hcc, hsc0, hmem, hname,
      expand_filters, setColumnNone, CsvEnvelope.resTable, hpm]
  · intro hp
    subst hp
    have hname : merge_column_name df.cols p p = p := by
      simp [merge_column_name]
    simp [process_csv_data, resolve_smiles_column, hcc, hsc0, hmem, hname,
      expand_filters, setColumnNone, CsvEnvelope.resTable]

/-- Concrete base table for the C5 witness: an existing `molecular_weight`
column (dummy value 100) plus the structure column `smi`. -/
def sampleMergeTable : Table :=
  Table.mk ["molecular_weight", "smi"]
    [[("molecular_weight", Value.num (PyFloat.val 100)),
      ("smi", Value.str "CCO")]]

/-- Witness for C5 (amended) at a concrete table with a pre-existing
`molecular_weight` column distinct from the structure column. -/
theorem c5_merge_column_naming_witness :
    (("h" : String) ≠ "") ∧ (("smi" : String) ≠ "") ∧
    (sampleMergeTable.cols.contains "smi" = true) ∧
    (sampleMergeTable.cols.contains "molecular_weight" = true) ∧
    (("molecular_weight" : String) ≠ "smi") ∧
    (sampleMergeTable.cols.contains ("molecular_weight" ++ "_calculated") = false) ∧
    ((process_csv_data "h" (some "smi") (some ["molecular_weight"]) (some [])
        (some sampleMergeTable) "" (fun _ => Option.none) (fun _ => nanProps)
        (fun _ => Option.none)).resTable.cols =
      sampleMergeTable.cols ++ ["molecular_weight" ++ "_calculated"] ∧
     List.Forall₂
       (fun r0 r1 => getRow r1 "molecular_weight" = getRow r0 "molecular_weight")
       sampleMergeTable.rows
       (process_csv_data "h" (some "smi") (some ["molecular_weight"]) (some [])
         (some sampleMergeTable) "" (fun _ => Option.none) (fun _ => nanProps)
         (fun _ => Option.none)).resTable.rows) :=
  ⟨by decide, by decide, by decide, by decide, by decide, by decide,
   (c5_merge_column_naming sampleMergeTable "h" "smi" "molecular_weight" ""
     (fun _ => Option.none) (fun _ => nanProps) (fun _ => Option.none)
     (by decide) (by decide) (by decide)).1 (by decide) (by decide) (by decide)⟩

end ChatMol
